import Mathlib

/-!
Verification of the pointercrate demonlist core against its specification.

The definitions below are a shallow embedding of the Rust sources
`pointercrate-demonlist/src/demon/mod.rs` and
`pointercrate-demonlist/src/record/post.rs`.  The database is modelled as an
explicit `Store` value threaded through the operations; SQL statements become
pure list transformations; machine integers (`i16`, `i32`, `i64`) become `Int`
(none of the verified paths overflow these widths on the values the list
manages); fallible operations return `Except DemonlistError`.  Code of the
repository that is referenced but whose file is not among the provided sources
(the error enum, `RecordStatus`, `FullRecord.set_status`, player resolution,
configuration thresholds, the video/URL collaborators) is modelled from the
specification; each such definition carries a doc comment saying so.
-/

deriving instance DecidableEq for Except

namespace Pointercrate

/-- Modelled from the spec: the variants of `DemonlistError` (the file
`error.rs` is not among the sources).  Each variant corresponds to one of the
errors of the spec error taxonomy, with the structured payloads named there
(`InvalidPosition` carries the maximal legal position, `InvalidProgress`
carries the demon requirement).  `demonNotFound` is the lookup error for an
unresolvable demon id. -/
inductive DemonlistError where
  | invalidRequirement
  | invalidLevelId
  | invalidPosition (maximal : Int)
  | invalidProgress (requirement : Int)
  | invalidEnjoyment
  | malformedRawUrl
  | rawRequired
  | playerBanned
  | submitLegacy
  | non100Extended
  | demonNotFound (demonId : Int)
deriving DecidableEq, Repr

/-- A row of the `demons` table, with the columns the verified operations
touch: `id`, `position`, `name` (from `MinimalDemon`) and `requirement`. -/
structure DemonRow where
  id : Int
  position : Int
  name : String
  requirement : Int
deriving DecidableEq, Repr

/-- The `demons` table. -/
abbrev DemonTable := List DemonRow

/-- SQL `MAX` over a list of values: `none` on an empty table (SQL `NULL`),
otherwise the greatest element. -/
def sqlMax : List Int → Option Int
  | [] => none
  | q :: rest =>
    match sqlMax rest with
    | none => some q
    | some m => some (max q m)

namespace Demon

/-- Embeds `Demon::max_position` (demon/mod.rs:265-271):
`SELECT MAX(position) as max_position FROM demons`, `unwrap_or(0)`. -/
def max_position (table : DemonTable) : Int :=
  (sqlMax (table.map DemonRow.position)).getD 0

/-- Embeds `Demon::validate_position` (demon/mod.rs:239-249): the new position
must lie between 1 and (current last position + 1) inclusive, otherwise the
call fails with `InvalidPosition` carrying the maximal legal value. -/
def validate_position (position : Int) (table : DemonTable) : Except DemonlistError Unit :=
  let maximal_position := max_position table + 1
  if position > maximal_position ∨ position < 1 then
    .error (.invalidPosition maximal_position)
  else
    .ok ()

/-- Embeds `Demon::shift_down` (demon/mod.rs:253-261):
`UPDATE demons SET position = position + 1 WHERE position >= $1`. -/
def shift_down (starting_at : Int) (table : DemonTable) : DemonTable :=
  table.map fun row =>
    if row.position ≥ starting_at then { row with position := row.position + 1 } else row

/-- Modelled from the spec: the insert operation itself lives in
`demon/post.rs`, which is not among the sources.  Spec section 4.3:
"insertion itself is: validate target position, shift_down(target), then
write the new entry at that position". -/
def insert_demon (newId : Int) (name : String) (requirement : Int) (position : Int)
    (table : DemonTable) : Except DemonlistError DemonTable :=
  match validate_position position table with
  | .error e => .error e
  | .ok _ =>
    .ok ({ id := newId, position := position, name := name, requirement := requirement }
          :: shift_down position table)

/-- A sequence of inserts, each going through `insert_demon`; an op is
(id, name, requirement, target position). -/
def insert_all : List (Int × String × Int × Int) → DemonTable → Except DemonlistError DemonTable
  | [], table => .ok table
  | (i, n, r, p) :: ops, table =>
    match insert_demon i n r p table with
    | .error e => .error e
    | .ok table' => insert_all ops table'

end Demon

/-- The multiset of positions assigned in a demons table. -/
def positionsOf (table : DemonTable) : Multiset Int :=
  (table.map DemonRow.position : List Int)

/-- The multiset `{1, …, n}` of positions of a gap-free, duplicate-free list
of `n` entries. -/
def posRange (n : ℕ) : Multiset Int :=
  (Multiset.range n).map fun i : ℕ => (i : Int) + 1

/-- Contiguity invariant: the positions are exactly the set `{1, …, N}` where
`N` is the entry count — no gaps and no duplicates. -/
def contiguous (table : DemonTable) : Prop :=
  positionsOf table = posRange table.length

instance (table : DemonTable) : Decidable (contiguous table) := by
  unfold contiguous; infer_instance

lemma sqlMax_none_iff (l : List Int) : sqlMax l = none ↔ l = [] := by
  cases l with
  | nil => simp [sqlMax]
  | cons q rest =>
    simp only [sqlMax]
    cases sqlMax rest <;> simp

lemma sqlMax_spec : ∀ {l : List Int} {m : Int}, sqlMax l = some m → m ∈ l ∧ ∀ x ∈ l, x ≤ m := by
  intro l
  induction l with
  | nil => intro m h; simp [sqlMax] at h
  | cons q rest ih =>
    intro m h
    unfold sqlMax at h
    cases hr : sqlMax rest with
    | none =>
      rw [hr] at h
      obtain rfl : rest = [] := (sqlMax_none_iff rest).1 hr
      simp only [Option.some.injEq] at h
      subst h
      simp
    | some mr =>
      rw [hr] at h
      simp only [Option.some.injEq] at h
      subst h
      obtain ⟨hmem, hub⟩ := ih hr
      refine ⟨?_, ?_⟩
      · rcases max_choice q mr with hq | hq <;> rw [hq]
        · exact List.mem_cons_self q rest
        · exact List.mem_cons_of_mem q hmem
      · intro x hx
        rcases List.mem_cons.1 hx with rfl | hx
        · exact le_max_left _ _
        · exact le_trans (hub x hx) (le_max_right _ _)

lemma mem_posRange {q : Int} {n : ℕ} : q ∈ posRange n ↔ 1 ≤ q ∧ q ≤ (n : Int) := by
  unfold posRange
  constructor
  · intro hq
    obtain ⟨i, hi, rfl⟩ := Multiset.mem_map.1 hq
    have hin : i < n := Multiset.mem_range.1 hi
    omega
  · rintro ⟨h1, h2⟩
    refine Multiset.mem_map.2 ⟨(q - 1).toNat, ?_, ?_⟩
    · exact Multiset.mem_range.2 (by omega)
    · omega

lemma contiguous_mem {table : DemonTable} (h : contiguous table) (q : Int) :
    q ∈ table.map DemonRow.position ↔ 1 ≤ q ∧ q ≤ (table.length : Int) := by
  rw [← Multiset.mem_coe]
  change q ∈ positionsOf table ↔ _
  rw [h, mem_posRange]

lemma max_position_contiguous {table : DemonTable} (h : contiguous table) :
    Demon.max_position table = (table.length : Int) := by
  unfold Demon.max_position
  cases hm : sqlMax (table.map DemonRow.position) with
  | none =>
    have : table.map DemonRow.position = [] := (sqlMax_none_iff _).1 hm
    have : table = [] := by simpa using this
    simp [this]
  | some m =>
    obtain ⟨hmem, hub⟩ := sqlMax_spec hm
    have hne : table ≠ [] := by
      intro he; subst he; simp [sqlMax] at hm
    have hlen : 1 ≤ table.length := by
      cases table with
      | nil => exact absurd rfl hne
      | cons _ _ => simp
    have hmle : m ≤ (table.length : Int) := ((contiguous_mem h m).1 hmem).2
    have hlem : (table.length : Int) ≤ m :=
      hub _ ((contiguous_mem h _).2 ⟨by exact_mod_cast hlen, le_refl _⟩)
    simp only [Option.getD_some]
    omega

lemma validate_position_ok_iff (p : Int) (table : DemonTable) :
    Demon.validate_position p table = .ok () ↔ 1 ≤ p ∧ p ≤ Demon.max_position table + 1 := by
  unfold Demon.validate_position
  dsimp only
  split_ifs with h
  · simp only [reduceCtorEq, false_iff]; omega
  · simp only [true_iff]; omega

lemma shift_down_positions (s : Int) (table : DemonTable) :
    positionsOf (Demon.shift_down s table) =
      (positionsOf table).map fun q => if s ≤ q then q + 1 else q := by
  induction table with
  | nil => rfl
  | cons row rest ih =>
    show (_ ::ₘ positionsOf (Demon.shift_down s rest)) = _
    rw [ih]
    show _ ::ₘ _ = Multiset.map _ (row.position ::ₘ positionsOf rest)
    rw [Multiset.map_cons]
    congr 1
    by_cases hs : s ≤ row.position <;> simp [hs, ge_iff_le]

lemma posRange_succ (n : ℕ) : posRange (n + 1) = ((n : Int) + 1) ::ₘ posRange n := by
  simp [posRange, Multiset.range_succ]

lemma map_shift_posRange {p : Int} : ∀ {n : ℕ}, 1 ≤ p → p ≤ (n : Int) + 1 →
    p ::ₘ (posRange n).map (fun q => if p ≤ q then q + 1 else q) = posRange (n + 1) := by
  intro n
  induction n with
  | zero =>
    intro h1 h2
    obtain rfl : p = 1 := by exact_mod_cast le_antisymm h2 h1
    simp [posRange, Multiset.range_succ]
  | succ n ih =>
    intro h1 h2
    rw [posRange_succ n, Multiset.map_cons]
    by_cases hp : p ≤ (n : Int) + 1
    · rw [if_pos hp, Multiset.cons_swap, ih h1 hp, posRange_succ (n + 1)]
      have hcast : ((n + 1 : ℕ) : Int) + 1 = ((n : Int) + 1) + 1 := by push_cast; ring
      rw [hcast]
    · have hpeq : p = (n : Int) + 2 := by omega
      rw [if_neg hp]
      have hmapid : (posRange n).map (fun q => if p ≤ q then q + 1 else q) = posRange n := by
        conv_rhs => rw [← Multiset.map_id (posRange n)]
        refine Multiset.map_congr rfl ?_
        intro q hq
        have := mem_posRange.1 hq
        simp only [id_eq]
        rw [if_neg (by omega)]
      rw [hmapid, hpeq, posRange_succ (n + 1), posRange_succ n]
      have hcast : ((n + 1 : ℕ) : Int) + 1 = (n : Int) + 2 := by push_cast; ring
      rw [hcast, Multiset.cons_swap]

lemma insert_demon_ok {table table' : DemonTable} {i : Int} {nm : String} {r p : Int}
    (hc : contiguous table) (h : Demon.insert_demon i nm r p table = .ok table') :
    contiguous table' ∧ table'.length = table.length + 1 := by
  unfold Demon.insert_demon at h
  cases hv : Demon.validate_position p table with
  | error e => rw [hv] at h; cases h
  | ok u =>
    rw [hv] at h
    injection h with h
    subst h
    cases u
    have hp := (validate_position_ok_iff p table).1 hv
    have hmax := max_position_contiguous hc
    rw [hmax] at hp
    have hlen : (Demon.shift_down p table).length = table.length := by
      simp [Demon.shift_down]
    constructor
    · unfold contiguous
      show p ::ₘ positionsOf (Demon.shift_down p table) = _
      rw [shift_down_positions, hc]
      simp only [List.length_cons, hlen]
      exact map_shift_posRange hp.1 hp.2
    · simp [hlen]

lemma insert_all_ok :
    ∀ (ops : List (Int × String × Int × Int)) (table tableN : DemonTable),
      contiguous table → Demon.insert_all ops table = .ok tableN →
      contiguous tableN ∧ tableN.length = table.length + ops.length := by
  intro ops
  induction ops with
  | nil =>
    intro t tN hc h
    unfold Demon.insert_all at h
    injection h with h
    subst h
    simpa
  | cons op ops ih =>
    intro t tN hc h
    obtain ⟨i, n, r, p⟩ := op
    unfold Demon.insert_all at h
    cases hd : Demon.insert_demon i n r p t with
    | error e => rw [hd] at h; cases h
    | ok t1 =>
      rw [hd] at h
      obtain ⟨hc1, hl1⟩ := insert_demon_ok hc hd
      obtain ⟨hcN, hlN⟩ := ih t1 tN hc1 h
      refine ⟨hcN, by simp [hlN, hl1]; omega⟩

/-- C1: `shift_down(starting_at)` increments by one the position of every
entry whose position is `>= starting_at` and changes no other entry; and for
every sequence of inserts that each perform `validate_position`, then
`shift_down(target)`, then write the new entry at the target position,
starting from a contiguous table the positions after each insert are exactly
the set `{1, …, N}` where `N` is the entry count (no gaps, no duplicates) —
"after each insert" because every intermediate table is the successful result
of `insert_all` on a prefix of the operation sequence. -/
theorem claim_C1_contiguity :
    (∀ (s : Int) (t : DemonTable),
      (Demon.shift_down s t).length = t.length ∧
      ∀ i : ℕ, (Demon.shift_down s t)[i]? =
        (t[i]?).map fun row =>
          if row.position ≥ s then { row with position := row.position + 1 } else row) ∧
    (∀ (ops : List (Int × String × Int × Int)) (table tableN : DemonTable),
      contiguous table → Demon.insert_all ops table = .ok tableN →
      contiguous tableN ∧ tableN.length = table.length + ops.length) := by
  constructor
  · intro s t
    constructor
    · simp [Demon.shift_down]
    · intro i
      simp [Demon.shift_down, List.getElem?_map]
  · exact insert_all_ok

/-- Witness for C1: a concrete sequence of three inserts into the empty table
(positions 1, then 1 again, then 2) yields a contiguous table of size 3. -/
theorem claim_C1_contiguity_witness :
    contiguous ([] : DemonTable) ∧
    Demon.insert_all [(1, "A", 90, 1), (2, "B", 80, 1), (3, "C", 70, 2)] [] =
      .ok [⟨3, 2, "C", 70⟩, ⟨2, 1, "B", 80⟩, ⟨1, 3, "A", 90⟩] ∧
    contiguous [⟨3, 2, "C", 70⟩, ⟨2, 1, "B", 80⟩, ⟨1, 3, "A", 90⟩] :=
  ⟨by decide, by decide,
    (claim_C1_contiguity.2 [(1, "A", 90, 1), (2, "B", 80, 1), (3, "C", 70, 2)] [] _
      (by decide) (by decide)).1⟩

/-- C5: `validate_position(p)` succeeds iff `1 <= p <= max_position()+1` and
otherwise fails with `InvalidPosition` carrying the maximal legal value
`max_position()+1`; `max_position` is an upper bound of all assigned positions
and is attained by some entry when the table is nonempty; on an empty table
`max_position` is `0` and only `p = 1` is accepted. -/
theorem claim_C5_validate_position :
    ∀ (p : Int) (table : DemonTable),
      (Demon.validate_position p table = .ok () ↔
        1 ≤ p ∧ p ≤ Demon.max_position table + 1) ∧
      (¬(1 ≤ p ∧ p ≤ Demon.max_position table + 1) →
        Demon.validate_position p table =
          .error (.invalidPosition (Demon.max_position table + 1))) ∧
      (∀ row ∈ table, row.position ≤ Demon.max_position table) ∧
      (table ≠ [] → ∃ row ∈ table, row.position = Demon.max_position table) ∧
      (table = [] →
        Demon.max_position table = 0 ∧ (Demon.validate_position p table = .ok () ↔ p = 1)) := by
  intro p table
  refine ⟨validate_position_ok_iff p table, ?_, ?_, ?_, ?_⟩
  · intro h
    unfold Demon.validate_position
    dsimp only
    rw [if_pos (by omega)]
  · intro row hrow
    unfold Demon.max_position
    cases hm : sqlMax (table.map DemonRow.position) with
    | none =>
      have : table.map DemonRow.position = [] := (sqlMax_none_iff _).1 hm
      simp at this
      subst this
      simp at hrow
    | some m =>
      obtain ⟨_, hub⟩ := sqlMax_spec hm
      simpa using hub row.position (List.mem_map_of_mem DemonRow.position hrow)
  · intro hne
    unfold Demon.max_position
    cases hm : sqlMax (table.map DemonRow.position) with
    | none =>
      have : table.map DemonRow.position = [] := (sqlMax_none_iff _).1 hm
      simp at this
      exact absurd this hne
    | some m =>
      obtain ⟨hmem, _⟩ := sqlMax_spec hm
      obtain ⟨row, hrow, hpos⟩ := List.mem_map.1 hmem
      exact ⟨row, hrow, by simp [hpos]⟩
  · rintro rfl
    refine ⟨rfl, ?_⟩
    rw [validate_position_ok_iff]
    show 1 ≤ p ∧ p ≤ 0 + 1 ↔ p = 1
    omega

/-- Witness for C5: on the empty table, position 5 is rejected with the
maximal legal value 1, and position 1 is accepted. -/
theorem claim_C5_validate_position_witness :
    (¬(1 ≤ (5 : Int) ∧ (5 : Int) ≤ Demon.max_position [] + 1) ∧
      Demon.validate_position 5 [] = .error (.invalidPosition (Demon.max_position [] + 1))) ∧
    (([] : DemonTable) = [] ∧ Demon.max_position [] = 0 ∧
      (Demon.validate_position 1 [] = .ok () ↔ (1 : Int) = 1)) :=
  ⟨⟨by decide, (claim_C5_validate_position 5 []).2.1 (by decide)⟩,
   ⟨rfl, (claim_C5_validate_position 1 []).2.2.2.2 rfl⟩⟩

/-- The difficulty tiers a level can be in (demon/mod.rs:37-47). -/
inductive Difficulty where
  | silent
  | legendary
  | extreme
  | mythical
  | insane
  | hard
  | medium
  | easy
  | beginner
deriving DecidableEq, Repr, Fintype

namespace Difficulty

/-- Embeds `Difficulty::to_sql` (demon/mod.rs:50-63). -/
def to_sql : Difficulty → String
  | .silent => "silent"
  | .legendary => "legendary"
  | .extreme => "extreme"
  | .mythical => "mythical"
  | .insane => "insane"
  | .hard => "hard"
  | .medium => "medium"
  | .easy => "easy"
  | .beginner => "beginner"

/-- Embeds the `Display` implementation for `Difficulty`
(demon/mod.rs:81-95), which writes the same lowercase tokens. -/
def displayString : Difficulty → String
  | .silent => "silent"
  | .legendary => "legendary"
  | .extreme => "extreme"
  | .mythical => "mythical"
  | .insane => "insane"
  | .hard => "hard"
  | .medium => "medium"
  | .easy => "easy"
  | .beginner => "beginner"

/-- Embeds `Difficulty::serialize` (demon/mod.rs:97-104):
`serializer.serialize_str(&self.to_string())`, i.e. the `Display` token. -/
def serialize (d : Difficulty) : String :=
  d.displayString

/-- Embeds Rust `str::to_lowercase` as applied to difficulty tokens
(character-wise lowercasing; the nine accepted tokens and their case variants
are ASCII, where `Char.toLower` agrees with the Rust mapping). -/
def toLowercase (s : String) : String :=
  ⟨s.data.map Char.toLower⟩

/-- Embeds `Difficulty::deserialize` (demon/mod.rs:106-129): the input string
is lowercased, then matched against the nine accepted tokens; anything else is
a serde `invalid_value` error naming the accepted token set (the error message
is carried here as a plain string, serde machinery being external). -/
def deserialize (s : String) : Except String Difficulty :=
  let string := toLowercase s
  if string = "silent" then .ok .silent
  else if string = "legendary" then .ok .legendary
  else if string = "extreme" then .ok .extreme
  else if string = "mythical" then .ok .mythical
  else if string = "insane" then .ok .insane
  else if string = "hard" then .ok .hard
  else if string = "medium" then .ok .medium
  else if string = "easy" then .ok .easy
  else if string = "beginner" then .ok .beginner
  else .error "expected one of: silent, legendary, extreme, mythical, insane, hard, medium, easy, beginner"

end Difficulty

/-- C10: deserialization is a left inverse of serialization for every
`Difficulty` value, and since `deserialize` lowercases its input before
matching, every string whose lowercasing equals the serialized token of a
variant deserializes to that variant — acceptance is not limited to the exact
lowercase token set. -/
theorem claim_C10_difficulty_roundtrip :
    (∀ d : Difficulty, Difficulty.deserialize (Difficulty.serialize d) = .ok d) ∧
    (∀ (s : String) (d : Difficulty),
      Difficulty.toLowercase s = Difficulty.serialize d →
      Difficulty.deserialize s = .ok d) := by
  constructor
  · intro d
    cases d <;> decide
  · intro s d h
    cases d <;> simp only [Difficulty.serialize, Difficulty.displayString] at h <;>
      simp [Difficulty.deserialize, h]

/-- Witness for C10: the mixed-case variants "Extreme" and "HARD" both
deserialize successfully to the corresponding variants. -/
theorem claim_C10_difficulty_roundtrip_witness :
    (Difficulty.toLowercase "Extreme" = Difficulty.serialize .extreme ∧
      Difficulty.deserialize "Extreme" = .ok .extreme) ∧
    (Difficulty.toLowercase "HARD" = Difficulty.serialize .hard ∧
      Difficulty.deserialize "HARD" = .ok .hard) :=
  ⟨⟨by decide, claim_C10_difficulty_roundtrip.2 "Extreme" .extreme (by decide)⟩,
   ⟨by decide, claim_C10_difficulty_roundtrip.2 "HARD" .hard (by decide)⟩⟩

/-- A database player as carried by submissions and demons; its fields are
visible in the sources (record/post.rs:212-216): `id`, `name`, `banned`. -/
structure DatabasePlayer where
  id : Int
  name : String
  banned : Bool
deriving DecidableEq, Repr

/-- Embeds `MinimalDemon` (demon/mod.rs:165-178). -/
structure MinimalDemon where
  id : Int
  position : Int
  name : String
deriving DecidableEq, Repr

/-- Embeds `Demon` (demon/mod.rs:134-160): the minimal demon plus
requirement, metadata, publisher, verifier, level id and difficulty. -/
structure Demon where
  base : MinimalDemon
  requirement : Int
  video : Option String
  thumbnail : String
  publisher : DatabasePlayer
  verifier : DatabasePlayer
  level_id : Option Int
  difficulty : Difficulty
deriving DecidableEq, Repr

/-- Embeds `Demon::score` (demon/mod.rs:273-294).  The Rust function computes
over `f64`; the embedding computes the same formula over `ℝ` (`powf` on a
positive base is `Real.rpow`, `exp` is `Real.exp`), with the five match arms
in source order. -/
noncomputable def Demon.score (d : Demon) (progress : Int) : ℝ :=
  if progress < d.requirement then 0
  else
    let position := d.base.position
    let beaten_score : ℝ :=
      if 56 ≤ position ∧ position ≤ 150 then
        1.039035131 * ((185.7 * Real.exp (-0.02715 * (position : ℝ))) + 14.84)
      else if 36 ≤ position ∧ position ≤ 55 then
        1.0371139743 * ((212.61 * (1.036 : ℝ) ^ ((1 : ℝ) - (position : ℝ))) + 25.071)
      else if 21 ≤ position ∧ position ≤ 35 then
        ((250 - 83.389) * (1.0099685 : ℝ) ^ ((2 : ℝ) - (position : ℝ)) - 31.152) * 1.0371139743
      else if 4 ≤ position ∧ position ≤ 20 then
        ((326.1 * Real.exp (-0.0871 * (position : ℝ))) + 51.09) * 1.037117142
      else if 1 ≤ position ∧ position ≤ 3 then
        -18.2899079915 * (position : ℝ) + 368.2899079915
      else 0
    if progress ≠ 100 then
      beaten_score *
          (5 : ℝ) ^ (((progress : ℝ) - (d.requirement : ℝ)) / ((100 : ℝ) - (d.requirement : ℝ))) /
        10
    else beaten_score

/-- Modelled from the spec: the `beaten_score` piecewise formula exactly as
the spec states it in section 4.2, segments listed in ascending position
order with the stated coefficients, for comparison with the embedded
`Demon.score`. -/
noncomputable def spec_beaten_score (position : Int) : ℝ :=
  if 1 ≤ position ∧ position ≤ 3 then
    -18.2899079915 * (position : ℝ) + 368.2899079915
  else if 4 ≤ position ∧ position ≤ 20 then
    ((326.1 * Real.exp (-0.0871 * (position : ℝ))) + 51.09) * 1.037117142
  else if 21 ≤ position ∧ position ≤ 35 then
    ((250 - 83.389) * (1.0099685 : ℝ) ^ ((2 : ℝ) - (position : ℝ)) - 31.152) * 1.0371139743
  else if 36 ≤ position ∧ position ≤ 55 then
    1.0371139743 * ((212.61 * (1.036 : ℝ) ^ ((1 : ℝ) - (position : ℝ))) + 25.071)
  else if 56 ≤ position ∧ position ≤ 150 then
    1.039035131 * ((185.7 * Real.exp (-0.02715 * (position : ℝ))) + 14.84)
  else 0

/-- Modelled from the spec: the score function exactly as the spec states it
in section 4.2 — zero below the requirement, `beaten_score` at progress 100,
and `beaten_score * 5 ^ ((progress - requirement) / (100 - requirement)) / 10`
otherwise. -/
noncomputable def spec_score (position requirement progress : Int) : ℝ :=
  if progress < requirement then 0
  else if progress = 100 then spec_beaten_score position
  else
    spec_beaten_score position *
        (5 : ℝ) ^ (((progress : ℝ) - (requirement : ℝ)) / ((100 : ℝ) - (requirement : ℝ))) /
      10

/-- C4: for every demon whose position lies in `[1, 150]` and every progress
meeting the requirement, the embedded `Demon::score` equals the piecewise
formula of the spec with the exact stated coefficients (the function is a pure
function of position, requirement and progress, hence deterministic). -/
theorem claim_C4_score_formula :
    ∀ (d : Demon) (progress : Int),
      1 ≤ d.base.position → d.base.position ≤ 150 → d.requirement ≤ progress →
      d.score progress = spec_score d.base.position d.requirement progress := by
  intro d progress h1 h150 hreq
  unfold Demon.score spec_score spec_beaten_score
  dsimp only
  rw [if_neg (not_lt.2 hreq), if_neg (not_lt.2 hreq)]
  by_cases h100 : progress = 100
  · rw [if_pos h100, if_neg (by simpa using h100)]
    split_ifs <;> first | rfl | omega
  · rw [if_neg h100, if_pos h100]
    split_ifs <;> first | rfl | omega

/-- Witness demon for the score claims: position 3, requirement 90. -/
def exampleDemon : Demon :=
  { base := { id := 1, position := 3, name := "Bloodbath" }
    requirement := 90
    video := none
    thumbnail := "thumb"
    publisher := { id := 1, name := "stardust1971", banned := false }
    verifier := { id := 2, name := "verifier", banned := false }
    level_id := none
    difficulty := .extreme }

/-- Witness for C4: the formula equality instantiated at the example demon
(position 3, requirement 90) and progress 95. -/
theorem claim_C4_score_formula_witness :
    (1 ≤ exampleDemon.base.position ∧ exampleDemon.base.position ≤ 150 ∧
      exampleDemon.requirement ≤ 95) ∧
    Demon.score exampleDemon 95 =
      spec_score exampleDemon.base.position exampleDemon.requirement 95 :=
  ⟨by decide,
    claim_C4_score_formula exampleDemon 95 (by decide) (by decide) (by decide)⟩

/-- C6: the score floor — `score(progress) = 0` whenever
`progress < requirement`, via the first branch; in particular for
`requirement = 100` every `progress < 100` scores zero before any division is
evaluated, and for percentage progress (`progress ≤ 100`) the divisor
`100 - requirement` of the partial-progress branch is never zero: that branch
is only reached when `requirement ≤ progress` and `progress ≠ 100`. -/
theorem claim_C6_score_floor :
    (∀ (d : Demon) (progress : Int), progress < d.requirement → d.score progress = 0) ∧
    (∀ (d : Demon) (progress : Int), d.requirement = 100 → progress < 100 →
      d.score progress = 0) ∧
    (∀ (d : Demon) (progress : Int),
      d.requirement ≤ progress → progress ≤ 100 → progress ≠ 100 →
      (100 : ℝ) - (d.requirement : ℝ) ≠ 0) := by
  refine ⟨?_, ?_, ?_⟩
  · intro d progress h
    unfold Demon.score
    rw [if_pos h]
  · intro d progress h100 hlt
    unfold Demon.score
    rw [if_pos (by omega)]
  · intro d progress hreq hle hne
    have hlt : d.requirement < 100 := by omega
    have : (d.requirement : ℝ) < 100 := by exact_mod_cast hlt
    intro hzero
    linarith

/-- Witness for C6: the example demon (requirement 90) at progress 42 scores
zero, and at progress 95 the divisor of the partial-progress branch is
nonzero. -/
theorem claim_C6_score_floor_witness :
    ((42 : Int) < exampleDemon.requirement ∧ Demon.score exampleDemon 42 = 0) ∧
    (exampleDemon.requirement ≤ 95 ∧
      (100 : ℝ) - (exampleDemon.requirement : ℝ) ≠ 0) :=
  ⟨⟨by decide, claim_C6_score_floor.1 exampleDemon 42 (by decide)⟩,
   ⟨by decide, claim_C6_score_floor.2.2 exampleDemon 95 (by decide) (by decide) (by decide)⟩⟩

/-- The `1..=3` match arm of `Demon::score` (demon/mod.rs:285) as a function
of a real position. -/
noncomputable def segment_1_3 (position : ℝ) : ℝ :=
  -18.2899079915 * position + 368.2899079915

/-- The `4..=20` match arm of `Demon::score` (demon/mod.rs:284). -/
noncomputable def segment_4_20 (position : ℝ) : ℝ :=
  ((326.1 * Real.exp (-0.0871 * position)) + 51.09) * 1.037117142

/-- The `21..=35` match arm of `Demon::score` (demon/mod.rs:283). -/
noncomputable def segment_21_35 (position : ℝ) : ℝ :=
  ((250 - 83.389) * (1.0099685 : ℝ) ^ ((2 : ℝ) - position) - 31.152) * 1.0371139743

/-- The `36..=55` match arm of `Demon::score` (demon/mod.rs:282). -/
noncomputable def segment_36_55 (position : ℝ) : ℝ :=
  1.0371139743 * ((212.61 * (1.036 : ℝ) ^ ((1 : ℝ) - position)) + 25.071)

/-- The `56..=150` match arm of `Demon::score` (demon/mod.rs:281). -/
noncomputable def segment_56_150 (position : ℝ) : ℝ :=
  1.039035131 * ((185.7 * Real.exp (-0.02715 * position)) + 14.84)

lemma score_eq_segment_1_3 (d : Demon) (h1 : 1 ≤ d.base.position)
    (h2 : d.base.position ≤ 3) (hreq : d.requirement ≤ 100) :
    d.score 100 = segment_1_3 (d.base.position : ℝ) := by
  unfold Demon.score segment_1_3
  dsimp only
  rw [if_neg (by omega : ¬(100 : ℤ) < d.requirement), if_neg (by simp : ¬(100 : ℤ) ≠ 100),
    if_neg (by omega), if_neg (by omega), if_neg (by omega), if_neg (by omega),
    if_pos ⟨h1, h2⟩]

lemma score_eq_segment_4_20 (d : Demon) (h1 : 4 ≤ d.base.position)
    (h2 : d.base.position ≤ 20) (hreq : d.requirement ≤ 100) :
    d.score 100 = segment_4_20 (d.base.position : ℝ) := by
  unfold Demon.score segment_4_20
  dsimp only
  rw [if_neg (by omega : ¬(100 : ℤ) < d.requirement), if_neg (by simp : ¬(100 : ℤ) ≠ 100),
    if_neg (by omega), if_neg (by omega), if_neg (by omega), if_pos ⟨h1, h2⟩]

lemma score_eq_segment_21_35 (d : Demon) (h1 : 21 ≤ d.base.position)
    (h2 : d.base.position ≤ 35) (hreq : d.requirement ≤ 100) :
    d.score 100 = segment_21_35 (d.base.position : ℝ) := by
  unfold Demon.score segment_21_35
  dsimp only
  rw [if_neg (by omega : ¬(100 : ℤ) < d.requirement), if_neg (by simp : ¬(100 : ℤ) ≠ 100),
    if_neg (by omega), if_neg (by omega), if_pos ⟨h1, h2⟩]

lemma score_eq_segment_36_55 (d : Demon) (h1 : 36 ≤ d.base.position)
    (h2 : d.base.position ≤ 55) (hreq : d.requirement ≤ 100) :
    d.score 100 = segment_36_55 (d.base.position : ℝ) := by
  unfold Demon.score segment_36_55
  dsimp only
  rw [if_neg (by omega : ¬(100 : ℤ) < d.requirement), if_neg (by simp : ¬(100 : ℤ) ≠ 100),
    if_neg (by omega), if_pos ⟨h1, h2⟩]

lemma score_eq_segment_56_150 (d : Demon) (h1 : 56 ≤ d.base.position)
    (h2 : d.base.position ≤ 150) (hreq : d.requirement ≤ 100) :
    d.score 100 = segment_56_150 (d.base.position : ℝ) := by
  unfold Demon.score segment_56_150
  dsimp only
  rw [if_neg (by omega : ¬(100 : ℤ) < d.requirement), if_neg (by simp : ¬(100 : ℤ) ≠ 100),
    if_pos ⟨h1, h2⟩]

lemma exp_neg_2613_bounds :
    (0.7700498699 : ℝ) < Real.exp (-0.2613) ∧ Real.exp (-0.2613) < 0.7700498701 := by
  have h := Real.exp_bound (x := (-0.2613 : ℝ)) (by rw [abs_le]; norm_num) (n := 10) (by norm_num)
  rw [Finset.sum_range_succ, Finset.sum_range_succ, Finset.sum_range_succ, Finset.sum_range_succ,
    Finset.sum_range_succ, Finset.sum_range_succ, Finset.sum_range_succ, Finset.sum_range_succ,
    Finset.sum_range_succ, Finset.sum_range_succ, Finset.sum_range_zero,
    show |(-0.2613 : ℝ)| = 2613 / 10000 by rw [abs_of_nonpos] <;> norm_num,
    abs_le] at h
  norm_num [Nat.factorial] at h
  rw [show (-0.2613 : ℝ) = -(2613 / 10000) by norm_num]
  obtain ⟨h1, h2⟩ := h
  constructor <;> linarith

lemma exp_neg_871_bounds :
    (0.4185328062 : ℝ) < Real.exp (-0.871) ∧ Real.exp (-0.871) < 0.4185328072 := by
  have h := Real.exp_bound (x := (-0.871 : ℝ)) (by rw [abs_le]; norm_num) (n := 12) (by norm_num)
  rw [Finset.sum_range_succ, Finset.sum_range_succ, Finset.sum_range_succ, Finset.sum_range_succ,
    Finset.sum_range_succ, Finset.sum_range_succ, Finset.sum_range_succ, Finset.sum_range_succ,
    Finset.sum_range_succ, Finset.sum_range_succ, Finset.sum_range_succ, Finset.sum_range_succ,
    Finset.sum_range_zero,
    show |(-0.871 : ℝ)| = 871 / 1000 by rw [abs_of_nonpos] <;> norm_num,
    abs_le] at h
  norm_num [Nat.factorial] at h
  rw [show (-0.871 : ℝ) = -(871 / 1000) by norm_num]
  obtain ⟨h1, h2⟩ := h
  constructor <;> linarith

lemma exp_neg_7602_bounds :
    (0.4675729029 : ℝ) < Real.exp (-0.7602) ∧ Real.exp (-0.7602) < 0.4675729031 := by
  have h := Real.exp_bound (x := (-0.7602 : ℝ)) (by rw [abs_le]; norm_num) (n := 12) (by norm_num)
  rw [Finset.sum_range_succ, Finset.sum_range_succ, Finset.sum_range_succ, Finset.sum_range_succ,
    Finset.sum_range_succ, Finset.sum_range_succ, Finset.sum_range_succ, Finset.sum_range_succ,
    Finset.sum_range_succ, Finset.sum_range_succ, Finset.sum_range_succ, Finset.sum_range_succ,
    Finset.sum_range_zero,
    show |(-0.7602 : ℝ)| = 7602 / 10000 by rw [abs_of_nonpos] <;> norm_num,
    abs_le] at h
  norm_num [Nat.factorial] at h
  rw [show (-0.7602 : ℝ) = -(7602 / 10000) by norm_num]
  obtain ⟨h1, h2⟩ := h
  constructor <;> linarith

lemma exp_neg_1742_bounds :
    (0.1751697098 : ℝ) < Real.exp (-1.742) ∧ Real.exp (-1.742) < 0.1751697108 := by
  have hsq : Real.exp (-1.742) = Real.exp (-0.871) * Real.exp (-0.871) := by
    rw [← Real.exp_add]; norm_num
  obtain ⟨hl, hu⟩ := exp_neg_871_bounds
  rw [hsq]
  constructor <;> nlinarith

lemma exp_neg_15204_bounds :
    (0.2186244195 : ℝ) < Real.exp (-1.5204) ∧ Real.exp (-1.5204) < 0.2186244198 := by
  have hsq : Real.exp (-1.5204) = Real.exp (-0.7602) * Real.exp (-0.7602) := by
    rw [← Real.exp_add]; norm_num
  obtain ⟨hl, hu⟩ := exp_neg_7602_bounds
  rw [hsq]
  constructor <;> nlinarith

/-- C9: at each of the four segment joins of the `beaten_score` curve, the
two adjacent segment formulas evaluated at the same boundary position (3, 20,
35 and 56 respectively) differ by less than `1/8` — the piecewise curve has
no discontinuity at a join (the segment functions are the match arms of
`Demon::score`, see the `score_eq_segment` lemmas). -/
theorem claim_C9_boundary_continuity :
    |segment_1_3 3 - segment_4_20 3| < 1 / 8 ∧
    |segment_4_20 20 - segment_21_35 20| < 1 / 8 ∧
    |segment_21_35 35 - segment_36_55 35| < 1 / 8 ∧
    |segment_36_55 56 - segment_56_150 56| < 1 / 8 := by
  refine ⟨?_, ?_, ?_, ?_⟩
  · unfold segment_1_3 segment_4_20
    rw [show (-0.0871 : ℝ) * 3 = -0.2613 by norm_num]
    obtain ⟨hl, hu⟩ := exp_neg_2613_bounds
    rw [abs_sub_lt_iff]
    constructor <;> nlinarith
  · unfold segment_4_20 segment_21_35
    rw [show (-0.0871 : ℝ) * 20 = -1.742 by norm_num,
      show ((2 : ℝ) - 20) = ((-18 : ℤ) : ℝ) by norm_num, Real.rpow_intCast]
    obtain ⟨hl, hu⟩ := exp_neg_1742_bounds
    have hz : (0.8364867818 : ℝ) < (1.0099685 : ℝ) ^ ((-18 : ℤ)) ∧
        (1.0099685 : ℝ) ^ ((-18 : ℤ)) < 0.8364867819 := by
      constructor <;> norm_num
    obtain ⟨hzl, hzu⟩ := hz
    rw [abs_sub_lt_iff]
    constructor <;> nlinarith
  · unfold segment_21_35 segment_36_55
    rw [show ((2 : ℝ) - 35) = ((-33 : ℤ) : ℝ) by norm_num, Real.rpow_intCast,
      show ((1 : ℝ) - 35) = ((-34 : ℤ) : ℝ) by norm_num, Real.rpow_intCast]
    have hz1 : (0.7208446034 : ℝ) < (1.0099685 : ℝ) ^ ((-33 : ℤ)) ∧
        (1.0099685 : ℝ) ^ ((-33 : ℤ)) < 0.7208446035 := by
      constructor <;> norm_num
    have hz2 : (0.3004473072 : ℝ) < (1.036 : ℝ) ^ ((-34 : ℤ)) ∧
        (1.036 : ℝ) ^ ((-34 : ℤ)) < 0.3004473073 := by
      constructor <;> norm_num
    obtain ⟨hz1l, hz1u⟩ := hz1
    obtain ⟨hz2l, hz2u⟩ := hz2
    rw [abs_sub_lt_iff]
    constructor <;> nlinarith
  · unfold segment_36_55 segment_56_150
    rw [show ((1 : ℝ) - 56) = ((-55 : ℤ) : ℝ) by norm_num, Real.rpow_intCast,
      show (-0.02715 : ℝ) * 56 = -1.5204 by norm_num]
    obtain ⟨hl, hu⟩ := exp_neg_15204_bounds
    have hz : (0.1429596421 : ℝ) < (1.036 : ℝ) ^ ((-55 : ℤ)) ∧
        (1.036 : ℝ) ^ ((-55 : ℤ)) < 0.1429596422 := by
      constructor <;> norm_num
    obtain ⟨hzl, hzu⟩ := hz
    rw [abs_sub_lt_iff]
    constructor <;> nlinarith

/-- Modelled from the spec: `RecordStatus` (record/mod.rs is not among the
sources).  Spec section 4.6: a closed set of lifecycle states — Submitted
(the initial, open-submission default, also the serde default used by
`Submission`), Approved, Rejected, UnderConsideration. -/
inductive RecordStatus where
  | submitted
  | approved
  | rejected
  | underConsideration
deriving DecidableEq, Repr

instance : Inhabited RecordStatus :=
  ⟨.submitted⟩

/-- A submitter identity; the sources use only its `id`
(record/post.rs:156). -/
structure Submitter where
  id : Int
deriving DecidableEq, Repr

/-- A row of the `records` table, with the columns of the INSERT in
`ValidatedSubmission::create` (record/post.rs:151-159) plus the returned
`id`. -/
structure RecordRow where
  id : Int
  progress : Int
  video : Option String
  status : RecordStatus
  player : Int
  submitter : Int
  demon : Int
  raw_footage : Option String
deriving DecidableEq, Repr

/-- A row of the `record_notes` table (record/post.rs:184). -/
structure NoteRow where
  record : Int
  content : String
deriving DecidableEq, Repr

/-- The data store the pipeline runs against: the tables the embedded
operations touch, the id sequences backing `RETURNING id`, and two event
logs making the spec-modelled side effects (status transitions and player
score recomputations) observable. -/
structure Store where
  demons : DemonTable
  players : List DatabasePlayer
  records : List RecordRow
  record_notes : List NoteRow
  next_record_id : Int
  next_player_id : Int
  status_transitions : List (Int × RecordStatus)
  score_recomputations : List Int
deriving DecidableEq, Repr

/-- The external collaborators of the pipeline, passed as parameters: the
two configurable list thresholds (`crate::config::list_size`,
`crate::config::extended_list_size`), the video validation collaborator
(`crate::video::validate`), and URL well-formedness as decided by the `url`
crate (`Url::parse(raw).is_ok()`). -/
structure Config where
  list_size : Int
  extended_list_size : Int
  video_validate : String → Except DemonlistError String
  url_parse_ok : String → Bool

/-- Embeds `Submission` (record/post.rs:15-30). -/
structure Submission where
  progress : Int
  player : String
  demon : Int
  video : Option String
  raw_footage : Option String
  status : RecordStatus
  enjoyment : Option Int
  note : Option String
deriving DecidableEq, Repr

/-- Embeds `NormalizedSubmission` (record/post.rs:33-42). -/
structure NormalizedSubmission where
  progress : Int
  player : DatabasePlayer
  demon : MinimalDemon
  status : RecordStatus
  enjoyment : Option Int
  video : Option String
  raw_footage : Option String
  note : Option String
deriving DecidableEq, Repr

/-- Embeds `ValidatedSubmission` (record/post.rs:45-54). -/
structure ValidatedSubmission where
  progress : Int
  video : Option String
  raw_footage : Option String
  status : RecordStatus
  player : DatabasePlayer
  demon : MinimalDemon
  note : Option String
  enjoyment : Option Int
deriving DecidableEq, Repr

/-- Embeds `FullRecord` as constructed by `ValidatedSubmission::create`
(record/post.rs:164-174). -/
structure FullRecord where
  id : Int
  progress : Int
  video : Option String
  raw_footage : Option String
  status : RecordStatus
  enjoyment : Option Int
  player : DatabasePlayer
  demon : MinimalDemon
  submitter : Option Submitter
deriving DecidableEq, Repr

/-- Modelled from the spec: `DatabasePlayer::by_name_or_create` (player.rs is
not among the sources).  Spec sections 4.5 and 6: the player name is resolved
to a canonical player entity, creating one if absent — an idempotent upsert
by name.  A created player starts unbanned; creation is the only write. -/
def DatabasePlayer.by_name_or_create (name : String) (store : Store) :
    DatabasePlayer × Store :=
  match store.players.find? (fun p => p.name = name) with
  | some p => (p, store)
  | none =>
    let p : DatabasePlayer := { id := store.next_player_id, name := name, banned := false }
    (p, { store with
            players := store.players ++ [p],
            next_player_id := store.next_player_id + 1 })

/-- Modelled from the spec: `MinimalDemon::by_id` (demon/get.rs is not among
the sources).  Spec section 4.5: the entry reference (an id) is resolved to
its minimal form; an unknown id fails with a not-found-class error.  A pure
lookup, no writes. -/
def MinimalDemon.by_id (id : Int) (store : Store) : Except DemonlistError MinimalDemon :=
  match store.demons.find? (fun row => row.id = id) with
  | some row => .ok { id := row.id, position := row.position, name := row.name }
  | none => .error (.demonNotFound id)

/-- Embeds `MinimalDemon::requirement` (demon/mod.rs:204-209):
`SELECT requirement FROM demons WHERE id = $1`, a read-only query (a missing
row surfaces as the not-found error of the storage layer). -/
def MinimalDemon.requirement (d : MinimalDemon) (store : Store) : Except DemonlistError Int :=
  match store.demons.find? (fun row => row.id = d.id) with
  | some row => .ok row.requirement
  | none => .error (.demonNotFound d.id)

/-- Embeds `Submission::normalize` (record/post.rs:65-86): video validation
first (failure propagates before any write), then the player upsert (the only
possible write of the stage), then the demon lookup.  The returned store is
the state after the stage, whether it succeeds or fails. -/
def Submission.normalize (cfg : Config) (s : Submission) (store : Store) :
    Except DemonlistError NormalizedSubmission × Store :=
  let videoResult : Except DemonlistError (Option String) :=
    match s.video with
    | some v => (cfg.video_validate v).map some
    | none => .ok none
  match videoResult with
  | .error e => (.error e, store)
  | .ok video =>
    let resolved := DatabasePlayer.by_name_or_create s.player store
    match MinimalDemon.by_id s.demon resolved.2 with
    | .error e => (.error e, resolved.2)
    | .ok demon =>
      (.ok { progress := s.progress, player := resolved.1, demon := demon,
             status := s.status, enjoyment := s.enjoyment, video := video,
             raw_footage := s.raw_footage, note := s.note },
       resolved.2)

/-- The successful outcome of validation: the same fields, re-packaged
(record/post.rs:136-145). -/
def NormalizedSubmission.toValidated (s : NormalizedSubmission) : ValidatedSubmission :=
  { progress := s.progress, video := s.video, raw_footage := s.raw_footage,
    status := s.status, player := s.player, demon := s.demon, note := s.note,
    enjoyment := s.enjoyment }

/-- The raw-footage rule of `NormalizedSubmission::validate`
(record/post.rs:125-134): present footage must parse as a URL; absent footage
is only legal for a non-default status. -/
def NormalizedSubmission.raw_check (cfg : Config) (s : NormalizedSubmission) (store : Store) :
    Except DemonlistError ValidatedSubmission × Store :=
  match s.raw_footage with
  | some raw =>
    if cfg.url_parse_ok raw then (.ok s.toValidated, store)
    else (.error .malformedRawUrl, store)
  | none =>
    if s.status = RecordStatus.submitted then (.error .rawRequired, store)
    else (.ok s.toValidated, store)

/-- Embeds `NormalizedSubmission::validate` (record/post.rs:94-147): the
business rules in source order — banned player, legacy tier, extended tier,
progress against the fetched requirement, enjoyment range, raw footage.  The
stage only reads (the store is returned unchanged on every path). -/
def NormalizedSubmission.validate (cfg : Config) (s : NormalizedSubmission) (store : Store) :
    Except DemonlistError ValidatedSubmission × Store :=
  if s.player.banned then (.error .playerBanned, store)
  else if s.demon.position > cfg.extended_list_size ∧ s.status = RecordStatus.submitted then
    (.error .submitLegacy, store)
  else if s.demon.position > cfg.list_size ∧ s.progress ≠ 100 ∧
      s.status = RecordStatus.submitted then
    (.error .non100Extended, store)
  else
    match s.demon.requirement store with
    | .error e => (.error e, store)
    | .ok requirement =>
      if s.progress > 100 ∨ s.progress < requirement then
        (.error (.invalidProgress requirement), store)
      else
        match s.enjoyment with
        | some enjoyment =>
          if enjoyment < 0 ∨ enjoyment > 10 then (.error .invalidEnjoyment, store)
          else s.raw_check cfg store
        | none => s.raw_check cfg store

/-- Embeds the INSERT of `ValidatedSubmission::create` (record/post.rs:151-162):
`INSERT INTO records (progress, video, status_, player, submitter, demon,
raw_footage) VALUES ($1, $2, 'SUBMITTED', $3, $4, $5, $6) RETURNING id` — the
status column of the inserted row is the literal `'SUBMITTED'`, not the
requested status. -/
def ValidatedSubmission.create_insert (v : ValidatedSubmission) (submitter : Submitter)
    (store : Store) : Int × Store :=
  let id := store.next_record_id
  let row : RecordRow :=
    { id := id, progress := v.progress, video := v.video,
      status := RecordStatus.submitted, player := v.player.id,
      submitter := submitter.id, demon := v.demon.id, raw_footage := v.raw_footage }
  (id, { store with records := store.records ++ [row], next_record_id := id + 1 })

/-- Modelled from the spec: `FullRecord::set_status` (the record module
internals are not among the sources).  Spec section 4.6: the record is
reclassified to the new status (the routine always succeeds structurally and
does not re-run submission-time validation); the transition is logged in the
store so that invoking the canonical transition routine is observable.  Score
recomputation, which the create path triggers explicitly afterwards
(record/post.rs:190-192), is modelled by `DatabasePlayer.update_score`. -/
def FullRecord.set_status (r : FullRecord) (newStatus : RecordStatus) (store : Store) :
    FullRecord × Store :=
  ({ r with status := newStatus },
   { store with
       records := store.records.map fun row =>
         if row.id = r.id then { row with status := newStatus } else row,
       status_transitions := store.status_transitions ++ [(r.id, newStatus)] })

/-- Modelled from the spec: `Player::update_score` (player.rs is not among
the sources).  Spec section 4.6: recomputes the owning player's aggregate
score; modelled as an observable recomputation event for that player. -/
def DatabasePlayer.update_score (p : DatabasePlayer) (store : Store) : Store :=
  { store with score_recomputations := store.score_recomputations ++ [p.id] }

/-- Embeds `ValidatedSubmission::create` (record/post.rs:150-195): insert the
row (always with status `'SUBMITTED'`), build the `FullRecord` with status
`Submitted`, funnel any non-default requested status through the canonical
`set_status` routine, attach a non-blank initial note, and recompute the
player score when the status differed from the default. -/
def ValidatedSubmission.create (v : ValidatedSubmission) (submitter : Submitter)
    (store : Store) : FullRecord × Store :=
  let inserted := v.create_insert submitter store
  let record : FullRecord :=
    { id := inserted.1, progress := v.progress, video := v.video,
      raw_footage := v.raw_footage, status := RecordStatus.submitted,
      enjoyment := v.enjoyment, player := v.player, demon := v.demon,
      submitter := some submitter }
  let afterStatus :=
    if v.status ≠ RecordStatus.submitted then record.set_status v.status inserted.2
    else (record, inserted.2)
  let store3 :=
    match v.note with
    | some note =>
      if ¬(note.trim = "") then
        { afterStatus.2 with
            record_notes := afterStatus.2.record_notes ++
              [{ record := afterStatus.1.id, content := note }] }
      else afterStatus.2
    | none => afterStatus.2
  let store4 :=
    if v.status ≠ RecordStatus.submitted then afterStatus.1.player.update_score store3
    else store3
  (afterStatus.1, store4)

lemma requirement_error_shape {d : MinimalDemon} {store : Store} {e : DemonlistError}
    (h : MinimalDemon.requirement d store = .error e) : e = .demonNotFound d.id := by
  unfold MinimalDemon.requirement at h
  cases hf : store.demons.find? (fun row => row.id = d.id) <;> rw [hf] at h
  · injection h with h
    exact h.symm
  · cases h

lemma validate_banned {cfg : Config} {s : NormalizedSubmission} {store : Store}
    (hb : s.player.banned = true) :
    (NormalizedSubmission.validate cfg s store).1 = .error .playerBanned := by
  unfold NormalizedSubmission.validate
  rw [if_pos hb]

lemma validate_legacy {cfg : Config} {s : NormalizedSubmission} {store : Store}
    (hb : s.player.banned = false) (hpos : s.demon.position > cfg.extended_list_size)
    (hst : s.status = RecordStatus.submitted) :
    (NormalizedSubmission.validate cfg s store).1 = .error .submitLegacy := by
  unfold NormalizedSubmission.validate
  rw [if_neg (by simp [hb]), if_pos ⟨hpos, hst⟩]

lemma validate_non100 {cfg : Config} {s : NormalizedSubmission} {store : Store}
    (hb : s.player.banned = false)
    (hnleg : ¬(s.demon.position > cfg.extended_list_size ∧ s.status = RecordStatus.submitted))
    (hpos : s.demon.position > cfg.list_size) (hprog : s.progress ≠ 100)
    (hst : s.status = RecordStatus.submitted) :
    (NormalizedSubmission.validate cfg s store).1 = .error .non100Extended := by
  unfold NormalizedSubmission.validate
  rw [if_neg (by simp [hb]), if_neg hnleg, if_pos ⟨hpos, hprog, hst⟩]

lemma validate_invalid_progress {cfg : Config} {s : NormalizedSubmission} {store : Store}
    {r : Int} (hb : s.player.banned = false)
    (hnleg : ¬(s.demon.position > cfg.extended_list_size ∧ s.status = RecordStatus.submitted))
    (hnext : ¬(s.demon.position > cfg.list_size ∧ s.progress ≠ 100 ∧
      s.status = RecordStatus.submitted))
    (hreq : s.demon.requirement store = .ok r)
    (hbad : s.progress > 100 ∨ s.progress < r) :
    (NormalizedSubmission.validate cfg s store).1 = .error (.invalidProgress r) := by
  unfold NormalizedSubmission.validate
  rw [if_neg (by simp [hb]), if_neg hnleg, if_neg hnext, hreq]
  dsimp only
  rw [if_pos hbad]

lemma validate_reaches_raw {cfg : Config} {s : NormalizedSubmission} {store : Store}
    {r : Int} (hb : s.player.banned = false)
    (hnleg : ¬(s.demon.position > cfg.extended_list_size ∧ s.status = RecordStatus.submitted))
    (hnext : ¬(s.demon.position > cfg.list_size ∧ s.progress ≠ 100 ∧
      s.status = RecordStatus.submitted))
    (hreq : s.demon.requirement store = .ok r)
    (hgood : ¬(s.progress > 100 ∨ s.progress < r))
    (henj : ∀ e, s.enjoyment = some e → ¬(e < 0 ∨ e > 10)) :
    NormalizedSubmission.validate cfg s store = s.raw_check cfg store := by
  unfold NormalizedSubmission.validate
  rw [if_neg (by simp [hb]), if_neg hnleg, if_neg hnext, hreq]
  dsimp only
  rw [if_neg hgood]
  cases he : s.enjoyment with
  | none => rfl
  | some e =>
    dsimp only
    rw [if_neg (henj e he)]

lemma raw_check_malformed {cfg : Config} {s : NormalizedSubmission} {store : Store}
    {u : String} (hraw : s.raw_footage = some u) (hparse : cfg.url_parse_ok u = false) :
    (s.raw_check cfg store).1 = .error .malformedRawUrl := by
  unfold NormalizedSubmission.raw_check
  rw [hraw]
  dsimp only
  rw [if_neg (by simp [hparse])]

lemma raw_check_required {cfg : Config} {s : NormalizedSubmission} {store : Store}
    (hraw : s.raw_footage = none) (hst : s.status = RecordStatus.submitted) :
    (s.raw_check cfg store).1 = .error .rawRequired := by
  unfold NormalizedSubmission.raw_check
  rw [hraw]
  dsimp only
  rw [if_pos hst]

lemma raw_check_ok_none {cfg : Config} {s : NormalizedSubmission} {store : Store}
    (hraw : s.raw_footage = none) (hst : s.status ≠ RecordStatus.submitted) :
    (s.raw_check cfg store).1 = .ok s.toValidated := by
  unfold NormalizedSubmission.raw_check
  rw [hraw]
  dsimp only
  rw [if_neg hst]

lemma validate_tier_errors (cfg : Config) (s : NormalizedSubmission) (store : Store) :
    ((NormalizedSubmission.validate cfg s store).1 = .error .submitLegacy →
      s.player.banned = false ∧ s.demon.position > cfg.extended_list_size ∧
        s.status = RecordStatus.submitted) ∧
    ((NormalizedSubmission.validate cfg s store).1 = .error .non100Extended →
      s.player.banned = false ∧ s.demon.position > cfg.list_size ∧ s.progress ≠ 100 ∧
        s.status = RecordStatus.submitted) := by
  unfold NormalizedSubmission.validate
  split_ifs with h1 h2 h3
  · constructor <;> (intro h; exact absurd h (by simp))
  · refine ⟨fun _ => ⟨by simpa using h1, h2.1, h2.2⟩, fun h => ?_⟩
    exact absurd h (by simp)
  · refine ⟨fun h => ?_, fun _ => ⟨by simpa using h1, h3.1, h3.2.1, h3.2.2⟩⟩
    exact absurd h (by simp)
  · cases hreq : s.demon.requirement store with
    | error e =>
      have he := requirement_error_shape hreq
      subst he
      constructor <;> (intro h; exact absurd h (by simp))
    | ok r =>
      dsimp only
      split_ifs with h4
      · constructor <;> (intro h; exact absurd h (by simp))
      · cases he : s.enjoyment with
        | none =>
          dsimp only
          unfold NormalizedSubmission.raw_check
          cases hraw : s.raw_footage <;> dsimp only <;> split_ifs <;>
            constructor <;> (intro h; exact absurd h (by simp))
        | some e =>
          dsimp only
          split_ifs with h5
          · constructor <;> (intro h; exact absurd h (by simp))
          · unfold NormalizedSubmission.raw_check
            cases hraw : s.raw_footage <;> dsimp only <;> split_ifs <;>
              constructor <;> (intro h; exact absurd h (by simp))

/-- C7: a banned player always fails validation with `PlayerBanned`,
regardless of every other field; more generally the rules are evaluated in
the fixed source order — banned player, legacy tier, extended tier, progress,
enjoyment, raw footage — and validation returns the error of the first rule
that fails (each conjunct assumes exactly that all earlier rules passed). -/
theorem claim_C7_validate_order :
    (∀ (cfg : Config) (s : NormalizedSubmission) (store : Store),
      s.player.banned = true →
      (NormalizedSubmission.validate cfg s store).1 = .error .playerBanned) ∧
    (∀ (cfg : Config) (s : NormalizedSubmission) (store : Store),
      s.player.banned = false →
      s.demon.position > cfg.extended_list_size → s.status = RecordStatus.submitted →
      (NormalizedSubmission.validate cfg s store).1 = .error .submitLegacy) ∧
    (∀ (cfg : Config) (s : NormalizedSubmission) (store : Store),
      s.player.banned = false →
      ¬(s.demon.position > cfg.extended_list_size ∧ s.status = RecordStatus.submitted) →
      s.demon.position > cfg.list_size → s.progress ≠ 100 →
      s.status = RecordStatus.submitted →
      (NormalizedSubmission.validate cfg s store).1 = .error .non100Extended) ∧
    (∀ (cfg : Config) (s : NormalizedSubmission) (store : Store) (r : Int),
      s.player.banned = false →
      ¬(s.demon.position > cfg.extended_list_size ∧ s.status = RecordStatus.submitted) →
      ¬(s.demon.position > cfg.list_size ∧ s.progress ≠ 100 ∧
        s.status = RecordStatus.submitted) →
      s.demon.requirement store = .ok r → (s.progress > 100 ∨ s.progress < r) →
      (NormalizedSubmission.validate cfg s store).1 = .error (.invalidProgress r)) ∧
    (∀ (cfg : Config) (s : NormalizedSubmission) (store : Store) (r e : Int),
      s.player.banned = false →
      ¬(s.demon.position > cfg.extended_list_size ∧ s.status = RecordStatus.submitted) →
      ¬(s.demon.position > cfg.list_size ∧ s.progress ≠ 100 ∧
        s.status = RecordStatus.submitted) →
      s.demon.requirement store = .ok r → ¬(s.progress > 100 ∨ s.progress < r) →
      s.enjoyment = some e → (e < 0 ∨ e > 10) →
      (NormalizedSubmission.validate cfg s store).1 = .error .invalidEnjoyment) ∧
    (∀ (cfg : Config) (s : NormalizedSubmission) (store : Store) (r : Int) (u : String),
      s.player.banned = false →
      ¬(s.demon.position > cfg.extended_list_size ∧ s.status = RecordStatus.submitted) →
      ¬(s.demon.position > cfg.list_size ∧ s.progress ≠ 100 ∧
        s.status = RecordStatus.submitted) →
      s.demon.requirement store = .ok r → ¬(s.progress > 100 ∨ s.progress < r) →
      (∀ e, s.enjoyment = some e → ¬(e < 0 ∨ e > 10)) →
      s.raw_footage = some u → cfg.url_parse_ok u = false →
      (NormalizedSubmission.validate cfg s store).1 = .error .malformedRawUrl) ∧
    (∀ (cfg : Config) (s : NormalizedSubmission) (store : Store) (r : Int),
      s.player.banned = false →
      ¬(s.demon.position > cfg.extended_list_size ∧ s.status = RecordStatus.submitted) →
      ¬(s.demon.position > cfg.list_size ∧ s.progress ≠ 100 ∧
        s.status = RecordStatus.submitted) →
      s.demon.requirement store = .ok r → ¬(s.progress > 100 ∨ s.progress < r) →
      (∀ e, s.enjoyment = some e → ¬(e < 0 ∨ e > 10)) →
      s.raw_footage = none → s.status = RecordStatus.submitted →
      (NormalizedSubmission.validate cfg s store).1 = .error .rawRequired) := by
  refine ⟨?_, ?_, ?_, ?_, ?_, ?_, ?_⟩
  · intro cfg s store hb
    exact validate_banned hb
  · intro cfg s store hb hpos hst
    exact validate_legacy hb hpos hst
  · intro cfg s store hb hnleg hpos hprog hst
    exact validate_non100 hb hnleg hpos hprog hst
  · intro cfg s store r hb hnleg hnext hreq hbad
    exact validate_invalid_progress hb hnleg hnext hreq hbad
  · intro cfg s store r e hb hnleg hnext hreq hgood he hbad
    unfold NormalizedSubmission.validate
    rw [if_neg (by simp [hb]), if_neg hnleg, if_neg hnext, hreq]
    dsimp only
    rw [if_neg hgood, he]
    dsimp only
    rw [if_pos hbad]
  · intro cfg s store r u hb hnleg hnext hreq hgood henj hraw hparse
    rw [validate_reaches_raw hb hnleg hnext hreq hgood henj]
    exact raw_check_malformed hraw hparse
  · intro cfg s store r hb hnleg hnext hreq hgood henj hraw hst
    rw [validate_reaches_raw hb hnleg hnext hreq hgood henj]
    exact raw_check_required hraw hst

/-- C8: for an unbanned player with the open-submission default status, a
position beyond `extended_list_size` fails with `SubmitLegacy`; a position in
the extended tier (above `list_size`, within `extended_list_size`) with
progress other than 100 fails with `Non100Extended`, while progress 100
passes both tier rules; and a non-default status bypasses both tier rules
entirely. -/
theorem claim_C8_tier_rules :
    (∀ (cfg : Config) (s : NormalizedSubmission) (store : Store),
      s.player.banned = false → s.status = RecordStatus.submitted →
      s.demon.position > cfg.extended_list_size →
      (NormalizedSubmission.validate cfg s store).1 = .error .submitLegacy) ∧
    (∀ (cfg : Config) (s : NormalizedSubmission) (store : Store),
      s.player.banned = false → s.status = RecordStatus.submitted →
      s.demon.position > cfg.list_size → s.demon.position ≤ cfg.extended_list_size →
      s.progress ≠ 100 →
      (NormalizedSubmission.validate cfg s store).1 = .error .non100Extended) ∧
    (∀ (cfg : Config) (s : NormalizedSubmission) (store : Store),
      s.demon.position ≤ cfg.extended_list_size → s.progress = 100 →
      (NormalizedSubmission.validate cfg s store).1 ≠ .error .submitLegacy ∧
      (NormalizedSubmission.validate cfg s store).1 ≠ .error .non100Extended) ∧
    (∀ (cfg : Config) (s : NormalizedSubmission) (store : Store),
      s.status ≠ RecordStatus.submitted →
      (NormalizedSubmission.validate cfg s store).1 ≠ .error .submitLegacy ∧
      (NormalizedSubmission.validate cfg s store).1 ≠ .error .non100Extended) := by
  refine ⟨?_, ?_, ?_, ?_⟩
  · intro cfg s store hb hst hpos
    exact validate_legacy hb hpos hst
  · intro cfg s store hb hst hpos hle hprog
    exact validate_non100 hb (by intro hc; omega) hpos hprog hst
  · intro cfg s store hle hprog
    obtain ⟨hleg, hext⟩ := validate_tier_errors cfg s store
    constructor
    · intro h
      obtain ⟨_, hpos, _⟩ := hleg h
      omega
    · intro h
      obtain ⟨_, _, hne, _⟩ := hext h
      exact hne hprog
  · intro cfg s store hst
    obtain ⟨hleg, hext⟩ := validate_tier_errors cfg s store
    constructor
    · intro h
      exact hst (hleg h).2.2
    · intro h
      exact hst (hext h).2.2.2

/-- A concrete configuration for witnesses: main list of 75, extended list of
150, a video validator that accepts everything unchanged, a URL parser that
accepts everything. -/
def exCfg : Config :=
  { list_size := 75, extended_list_size := 150,
    video_validate := fun v => .ok v, url_parse_ok := fun _ => true }

/-- A concrete store for witnesses: three demons (main, legacy, extended
tier), no players, no records. -/
def exStore : Store :=
  { demons := [⟨1, 1, "Bloodbath", 90⟩, ⟨2, 151, "LegacyLevel", 100⟩,
               ⟨3, 100, "ExtendedLevel", 100⟩],
    players := [], records := [], record_notes := [],
    next_record_id := 1, next_player_id := 1,
    status_transitions := [], score_recomputations := [] }

/-- The banned-player submission of the source test
`test_banned_cannot_submit` (record/post.rs:209-233). -/
def exBannedSubmission : NormalizedSubmission :=
  { progress := 100, player := ⟨1, "stardust1971", true⟩, demon := ⟨1, 1, "Bloodbath"⟩,
    status := .submitted, enjoyment := some 10, video := none, raw_footage := none,
    note := none }

/-- Witness for C7: the banned player of the source test is rejected with
`PlayerBanned` despite progress 100, enjoyment 10 and demon position 1. -/
theorem claim_C7_validate_order_witness :
    exBannedSubmission.player.banned = true ∧
    (NormalizedSubmission.validate exCfg exBannedSubmission exStore).1 =
      .error .playerBanned :=
  ⟨by decide, claim_C7_validate_order.1 exCfg exBannedSubmission exStore (by decide)⟩

/-- An open submission (default status) against the legacy-tier demon at
position 151. -/
def exLegacySubmission : NormalizedSubmission :=
  { progress := 100, player := ⟨1, "stardust1971", false⟩, demon := ⟨2, 151, "LegacyLevel"⟩,
    status := .submitted, enjoyment := none, video := none,
    raw_footage := some "https://example.com/raw", note := none }

/-- Witness for C8: the open submission to position 151 (beyond the extended
cutoff 150) is rejected with `SubmitLegacy`. -/
theorem claim_C8_tier_rules_witness :
    (exLegacySubmission.player.banned = false ∧
      exLegacySubmission.status = RecordStatus.submitted ∧
      exLegacySubmission.demon.position > exCfg.extended_list_size) ∧
    (NormalizedSubmission.validate exCfg exLegacySubmission exStore).1 =
      .error .submitLegacy :=
  ⟨by decide,
    claim_C8_tier_rules.1 exCfg exLegacySubmission exStore (by decide) (by decide) (by decide)⟩

/-- A raw submission under a player name that does not exist in `exStore`. -/
def exSubmissionNew : Submission :=
  { progress := 100, player := "stardust1971", demon := 1, video := none,
    raw_footage := some "https://example.com/raw", status := .submitted,
    enjoyment := some 10, note := none }

/-- Counterexample for C3: `normalize` is not write-free — resolving the
unknown player name "stardust1971" creates a player row, so the store after a
successful `normalize` differs from the store before it. -/
theorem claim_C3_counterexample :
    (Submission.normalize exCfg exSubmissionNew exStore).2 ≠ exStore ∧
    (Submission.normalize exCfg exSubmissionNew exStore).1 =
      .ok { progress := 100, player := ⟨1, "stardust1971", false⟩,
            demon := ⟨1, 1, "Bloodbath"⟩, status := .submitted, enjoyment := some 10,
            video := none, raw_footage := some "https://example.com/raw", note := none } := by
  constructor <;> decide

lemma map_id_of_mem {α : Type} (l : List α) (f : α → α) (h : ∀ x ∈ l, f x = x) :
    l.map f = l := by
  induction l with
  | nil => rfl
  | cons a rest ih =>
    simp only [List.map_cons, h a (List.mem_cons_self a rest),
      ih fun x hx => h x (List.mem_cons_of_mem a hx)]

lemma normalize_store_found {cfg : Config} {s : Submission} {store : Store}
    {q : DatabasePlayer}
    (hfind : store.players.find? (fun p => p.name = s.player) = some q) :
    (Submission.normalize cfg s store).2 = store := by
  unfold Submission.normalize DatabasePlayer.by_name_or_create
  rw [hfind]
  cases hv : s.video with
  | none =>
    dsimp only
    split <;> rfl
  | some v =>
    dsimp only
    cases hvv : cfg.video_validate v with
    | error e => rfl
    | ok cv =>
      dsimp only [Except.map]
      split <;> rfl

lemma normalize_store_shape (cfg : Config) (s : Submission) (store : Store) :
    (Submission.normalize cfg s store).2 = store ∨
    (Submission.normalize cfg s store).2 =
      { store with
          players := store.players ++
            [{ id := store.next_player_id, name := s.player, banned := false }],
          next_player_id := store.next_player_id + 1 } := by
  cases hfind : store.players.find? (fun p => p.name = s.player) with
  | some q => exact Or.inl (normalize_store_found hfind)
  | none =>
    unfold Submission.normalize DatabasePlayer.by_name_or_create
    rw [hfind]
    cases hv : s.video with
    | none =>
      right
      dsimp only
      split <;> rfl
    | some v =>
      dsimp only
      cases hvv : cfg.video_validate v with
      | error e =>
        left
        rfl
      | ok cv =>
        right
        dsimp only [Except.map]
        split <;> rfl

/-- C3 (amended): `validate` performs no writes on any path (success or
failure); `normalize` performs no writes beyond the idempotent player upsert —
it leaves the store unchanged whenever the player name already resolves, and
in general the store after `normalize` is either unchanged or extended with
exactly one new player row; only `create` writes records and notes. -/
theorem claim_C3_stage_writes :
    (∀ (cfg : Config) (s : NormalizedSubmission) (store : Store),
      (NormalizedSubmission.validate cfg s store).2 = store) ∧
    (∀ (cfg : Config) (s : Submission) (store : Store),
      (∃ p ∈ store.players, p.name = s.player) →
      (Submission.normalize cfg s store).2 = store) ∧
    (∀ (cfg : Config) (s : Submission) (store : Store),
      (Submission.normalize cfg s store).2 = store ∨
      (Submission.normalize cfg s store).2 =
        { store with
            players := store.players ++
              [{ id := store.next_player_id, name := s.player, banned := false }],
            next_player_id := store.next_player_id + 1 }) := by
  refine ⟨?_, ?_, ?_⟩
  · intro cfg s store
    unfold NormalizedSubmission.validate NormalizedSubmission.raw_check
    repeat' split
    all_goals rfl
  · intro cfg s store hex
    obtain ⟨p, hp, hname⟩ := hex
    cases hfind : store.players.find? (fun q => q.name = s.player) with
    | none =>
      exact absurd (by simpa using hname) (by simpa using List.find?_eq_none.1 hfind p hp)
    | some q =>
      exact normalize_store_found hfind
  · exact normalize_store_shape

/-- The store `exStore` with the player of `exSubmissionNew` already
present. -/
def exStoreWithPlayer : Store :=
  { exStore with players := [⟨1, "stardust1971", false⟩], next_player_id := 2 }

/-- Witness for C3: when the submitted player name is already present,
`normalize` leaves the store exactly unchanged. -/
theorem claim_C3_stage_writes_witness :
    (∃ p ∈ exStoreWithPlayer.players, p.name = exSubmissionNew.player) ∧
    (Submission.normalize exCfg exSubmissionNew exStoreWithPlayer).2 = exStoreWithPlayer :=
  ⟨by decide, claim_C3_stage_writes.2.1 exCfg exSubmissionNew exStoreWithPlayer (by decide)⟩

/-- A validated submission requesting the non-default initial status
`Approved`. -/
def exValidatedApproved : ValidatedSubmission :=
  { progress := 100, video := none, raw_footage := some "https://example.com/raw",
    status := .approved, player := ⟨1, "stardust1971", false⟩, demon := ⟨1, 1, "Bloodbath"⟩,
    note := none, enjoyment := some 10 }

/-- A concrete submitter identity. -/
def exSubmitter : Submitter := ⟨7⟩

/-- Counterexample for C2: the INSERT of `create` does not carry the
requested status — for a submission requesting `Approved`, the row as
inserted carries the literal default `SUBMITTED` status, which is changed
only afterwards by the status-transition routine. -/
theorem claim_C2_counterexample :
    exValidatedApproved.status = RecordStatus.approved ∧
    (exValidatedApproved.create_insert exSubmitter exStore).2.records.map RecordRow.status =
      [RecordStatus.submitted] ∧
    RecordStatus.submitted ≠ RecordStatus.approved := by
  refine ⟨by decide, by decide, by decide⟩

/-- C2 (amended): the INSERT of `create` always persists the row with the
default `SUBMITTED` status regardless of the requested status; when the
requested status differs from the default, `create` immediately funnels it
through the canonical `set_status` transition routine (logging the
transition) and recomputes the owning player's score, so the returned record
carries the requested status and — for a fresh record id — the persisted row
ends at the requested status as well. -/
theorem claim_C2_create_status :
    (∀ (v : ValidatedSubmission) (sub : Submitter) (store : Store),
      (v.create_insert sub store).2.records =
        store.records ++
          [({ id := store.next_record_id, progress := v.progress,
              video := v.video, status := RecordStatus.submitted, player := v.player.id,
              submitter := sub.id, demon := v.demon.id,
              raw_footage := v.raw_footage } : RecordRow)]) ∧
    (∀ (v : ValidatedSubmission) (sub : Submitter) (store : Store),
      (v.create sub store).1.status = v.status) ∧
    (∀ (v : ValidatedSubmission) (sub : Submitter) (store : Store),
      v.status ≠ RecordStatus.submitted →
      (v.create sub store).2.status_transitions =
        store.status_transitions ++ [(store.next_record_id, v.status)] ∧
      (v.create sub store).2.score_recomputations =
        store.score_recomputations ++ [v.player.id]) ∧
    (∀ (v : ValidatedSubmission) (sub : Submitter) (store : Store),
      (∀ row ∈ store.records, row.id ≠ store.next_record_id) →
      (v.create sub store).2.records =
        store.records ++
          [({ id := store.next_record_id, progress := v.progress,
              video := v.video, status := v.status, player := v.player.id,
              submitter := sub.id, demon := v.demon.id,
              raw_footage := v.raw_footage } : RecordRow)]) := by
  refine ⟨?_, ?_, ?_, ?_⟩
  · intro v sub store
    rfl
  · intro v sub store
    unfold ValidatedSubmission.create ValidatedSubmission.create_insert
      FullRecord.set_status
    dsimp only
    by_cases hst : v.status = RecordStatus.submitted
    · rw [if_neg (by simp [hst])]
      exact hst.symm
    · rw [if_pos hst]
  · intro v sub store hst
    unfold ValidatedSubmission.create ValidatedSubmission.create_insert
      FullRecord.set_status DatabasePlayer.update_score
    dsimp only
    simp only [if_pos hst]
    cases hn : v.note with
    | none => exact ⟨rfl, rfl⟩
    | some note =>
      dsimp only
      split_ifs <;> exact ⟨rfl, rfl⟩
  · intro v sub store hfresh
    unfold ValidatedSubmission.create ValidatedSubmission.create_insert
      FullRecord.set_status DatabasePlayer.update_score
    dsimp only
    by_cases hst : v.status = RecordStatus.submitted
    · rw [if_neg (by simp [hst]), if_neg (by simp [hst])]
      dsimp only
      cases hn : v.note with
      | none =>
        dsimp only
        rw [hst]
      | some note =>
        dsimp only
        split_ifs <;> rw [hst]
    · have hmap :
          (store.records ++
            [({ id := store.next_record_id, progress := v.progress,
                video := v.video, status := RecordStatus.submitted, player := v.player.id,
                submitter := sub.id, demon := v.demon.id,
                raw_footage := v.raw_footage } : RecordRow)]).map
            (fun row => if row.id = store.next_record_id
              then { row with status := v.status } else row) =
          store.records ++
            [({ id := store.next_record_id, progress := v.progress,
                video := v.video, status := v.status, player := v.player.id,
                submitter := sub.id, demon := v.demon.id,
                raw_footage := v.raw_footage } : RecordRow)] := by
        rw [List.map_append, map_id_of_mem store.records _
          (fun row hrow => if_neg (hfresh row hrow))]
        simp
      simp only [if_pos hst]
      cases hn : v.note with
      | none =>
        dsimp only
        exact hmap
      | some note =>
        dsimp only
        split_ifs <;> exact hmap

/-- Witness for C2: creating the `Approved`-requesting submission in the
empty-records store logs a transition of the fresh record to `Approved`, the
returned record carries `Approved`, and the persisted row ends at
`Approved`. -/
theorem claim_C2_create_status_witness :
    exValidatedApproved.status ≠ RecordStatus.submitted ∧
    (exValidatedApproved.create exSubmitter exStore).2.status_transitions =
      exStore.status_transitions ++ [(exStore.next_record_id, exValidatedApproved.status)] :=
  ⟨by decide,
    (claim_C2_create_status.2.2.1 exValidatedApproved exSubmitter exStore (by decide)).1⟩

end Pointercrate
